import Mathlib

/-!
Shallow embedding of the SideHustle telegram bot (src/bot.py) and proofs
about its conversation engine, persistent store, fan-out dispatcher,
metrics aggregator and admin surface.

Modelling conventions:
  * SQLite tables become Lean lists of structures; the newest row is at
    the head (matching the `ORDER BY ... DESC` reads used by the code).
  * Timestamps and dates are labelled by `Nat` (a day index); the code
    only ever compares them for equality (`DATE(created) = ?`) or keys
    rows by them.
  * Python exceptions on the delivery path are modelled by a boolean
    oracle `deliverOk : Nat -> Bool` saying whether sending to a given
    user id succeeds; the `try/except` around the audit log insert is
    modelled by a boolean `logOk` (False = the insert raised and the
    exception was swallowed, leaving the table unchanged).
  * Python string slicing `s[:n]` is modelled by `pyTake n s`, which
    takes the first `n` characters.
  * Telegram callback data is modelled as `List Char`.
  * Outgoing message wording is abbreviated to short constants: the
    text assembly of outgoing messages is presentation only; what the
    proofs rely on is which chat receives a message and which branch
    produced it.
-/

namespace Bot

/-- One row of the `users` table (`CREATE TABLE users`, src/bot.py). -/
structure User where
  user_id : Nat
  username : String
  role : String
  skills : String
  location : String
  is_banned : Bool
  created : Nat

deriving instance DecidableEq, Repr for User

/-- One row of the `jobs` table. -/
structure Job where
  id : Nat
  client_id : Nat
  title : String
  description : String
  budget : String
  status : String
  created : Nat

deriving instance DecidableEq, Repr for Job

/-- One row of the `user_activity` table. -/
structure ActivityEvent where
  user_id : Nat
  action : String
  details : String
  timestamp : Nat

deriving instance DecidableEq, Repr for ActivityEvent

/-- One row of the `daily_metrics` table (`date` is the primary key). -/
structure DailyMetric where
  date : Nat
  new_users : Nat
  new_jobs : Nat
  active_users : Nat

deriving instance DecidableEq, Repr for DailyMetric

/-- The persistent store: the four tables of src/bot.py. -/
structure DB where
  users : List User
  jobs : List Job
  activity : List ActivityEvent
  metrics : List DailyMetric

deriving instance DecidableEq, Repr for DB

/-- An outgoing message: target chat id and text. -/
structure Msg where
  chat : Nat
  text : String

deriving instance DecidableEq, Repr for Msg

/-- Python `s[:n]`: the first `n` characters of `s`. -/
def pyTake (n : Nat) (s : String) : String :=
  String.mk (s.toList.take n)

/-- Embeds `log_activity` (src/bot.py lines 122-136): insert one row into
`user_activity`; the whole body is wrapped in `try/except`, so a failing
insert (`logOk = false`) is swallowed and leaves the table unchanged. -/
def log_activity (logOk : Bool) (now user_id : Nat) (action details : String)
    (db : DB) : DB :=
  if logOk then
    { db with activity := ⟨user_id, action, details, now⟩ :: db.activity }
  else
    db

/-- Embeds `save_user` (src/bot.py lines 193-203): `INSERT OR REPLACE INTO users
(user_id, username, role) VALUES (?, ?, ?)`.  SQLite's REPLACE deletes
any existing row with the same primary key and inserts a fresh row, so
the columns not named in the statement (`skills`, `location`,
`is_banned`, `created`) come back as their column defaults. -/
def save_user (now user_id : Nat) (username role : String) (db : DB) : DB :=
  { db with users :=
      { user_id := user_id, username := username, role := role,
        skills := "", location := "", is_banned := false, created := now }
      :: db.users.filter (fun u => u.user_id ≠ user_id) }

/-- The statement `UPDATE users SET skills=? WHERE user_id=?` (src/bot.py line 339). -/
def updateSkills (user_id : Nat) (skills : String) (db : DB) : DB :=
  { db with users := db.users.map (fun u =>
      if u.user_id = user_id then { u with skills := skills } else u) }

/-- The statement `UPDATE users SET location=? WHERE user_id=?` (src/bot.py line 360). -/
def updateLocation (user_id : Nat) (location : String) (db : DB) : DB :=
  { db with users := db.users.map (fun u =>
      if u.user_id = user_id then { u with location := location } else u) }

/-- Embeds `create_job` (src/bot.py lines 205-218): insert a `jobs` row with
default status `open`; `lastrowid` of an AUTOINCREMENT table on which
rows are only ever inserted is the row count after the insert. -/
def nextJobId (db : DB) : Nat := db.jobs.length + 1

def create_job (now client_id : Nat) (title description budget : String)
    (db : DB) : DB × Nat :=
  let jid := nextJobId db
  ({ db with jobs :=
      ⟨jid, client_id, title, description, budget, "open", now⟩ :: db.jobs },
   jid)

/-- Embeds `get_freelancers` (src/bot.py lines 237-245):
`SELECT user_id FROM users WHERE role='freelancer' AND is_banned=0`. -/
def get_freelancers (db : DB) : List Nat :=
  (db.users.filter (fun u => u.role = "freelancer" ∧ u.is_banned = false)).map
    (fun u => u.user_id)

/-- Embeds `is_admin` (src/bot.py lines 247-251): true iff an admin id is
configured and the caller's id equals it. -/
def is_admin (adminId : Option Nat) (user_id : Nat) : Bool :=
  match adminId with
  | none => false
  | some a => user_id == a

/-! ### Ephemeral conversation state (the in-memory `user_state` dict) -/

/-- The `"step"` tag stored in `user_state[user_id]`. -/
inductive Step where
  | askSkills
  | askLocation
  | jobTitle
  | jobDescription
  | jobBudget

deriving instance DecidableEq, Repr for Step

/-- One value of the `user_state` dict: the step tag plus the optional
`"title"` / `"description"` keys accumulated by the client flow. -/
structure ConvState where
  step : Step
  title : Option String
  description : Option String

deriving instance DecidableEq, Repr for ConvState

/-- The `user_state` dict, keyed by user id. -/
abbrev StateMap := List (Nat × ConvState)

/-- Dict assignment `user_state[uid] = cs` (dict assignment: replaces any old entry). -/
def insertState (st : StateMap) (uid : Nat) (cs : ConvState) : StateMap :=
  (uid, cs) :: st.filter (fun p => p.1 ≠ uid)

/-- Dict read `user_state.get(uid)`. -/
def lookupState (st : StateMap) (uid : Nat) : Option ConvState :=
  (st.find? (fun p => p.1 = uid)).map (fun p => p.2)

/-- Dict removal `user_state.pop(uid, None)`. -/
def eraseState (st : StateMap) (uid : Nat) : StateMap :=
  st.filter (fun p => p.1 ≠ uid)

/-! ### Conversation engine handlers -/

/-- Embeds `choose_role` (src/bot.py lines 296-324).  `textHasFreelancer`
models the Python test `"Freelancer" in message.text` on the two
role-button labels this handler is registered for.  It logs one
`role_selected` event, calls `save_user`, then seeds the per-role
ephemeral state and sends the next prompt. -/
def choose_role (logOk : Bool) (now uid : Nat) (username : String)
    (textHasFreelancer : Bool) (db : DB) (st : StateMap) :
    DB × StateMap × List Msg :=
  let role := if textHasFreelancer then "freelancer" else "client"
  let db1 := log_activity logOk now uid "role_selected"
      ("Selected role: " ++ role) db
  let db2 := save_user now uid username role db1
  if role = "freelancer" then
    (db2, insertState st uid ⟨Step.askSkills, none, none⟩,
     [⟨uid, "What are your skills?"⟩])
  else
    (db2, insertState st uid ⟨Step.jobTitle, none, none⟩,
     [⟨uid, "Post a Job - enter job title:"⟩])

/-- Embeds `handle_skills` (src/bot.py lines 327-346): logs `set_skills` with
the detail `"Skills: " + skills[:50]`, updates the `skills` column,
advances the state to `ask_location`. -/
def handle_skills (logOk : Bool) (now uid : Nat) (text : String)
    (db : DB) (st : StateMap) : DB × StateMap × List Msg :=
  let db1 := log_activity logOk now uid "set_skills"
      ("Skills: " ++ pyTake 50 text) db
  let db2 := updateSkills uid text db1
  (db2, insertState st uid ⟨Step.askLocation, none, none⟩,
   [⟨uid, "Where are you located?"⟩])

/-- Embeds `handle_location` (src/bot.py lines 348-373): logs `set_location`
with the detail `"Location: " + location` (NO truncation in the
source), updates the `location` column, clears the state. -/
def handle_location (logOk : Bool) (now uid : Nat) (text : String)
    (db : DB) (st : StateMap) : DB × StateMap × List Msg :=
  let db1 := log_activity logOk now uid "set_location"
      ("Location: " ++ text) db
  let db2 := updateLocation uid text db1
  (db2, eraseState st uid, [⟨uid, "Profile Complete!"⟩])

/-- Embeds `handle_job_title` (src/bot.py lines 376-387): stores the title in
the ephemeral dict and advances the step.  The source contains no
`log_activity` call in this handler. -/
def handle_job_title (uid : Nat) (text : String) (db : DB) (st : StateMap) :
    DB × StateMap × List Msg :=
  (db, insertState st uid ⟨Step.jobDescription, some text, none⟩,
   [⟨uid, "Job Description:"⟩])

/-- Embeds `handle_job_description` (src/bot.py lines 389-398): mutates the
existing dict entry, adding the description and advancing the step.
The source contains no `log_activity` call in this handler. -/
def handle_job_description (uid : Nat) (text : String) (cs : ConvState)
    (db : DB) (st : StateMap) : DB × StateMap × List Msg :=
  (db, insertState st uid { cs with step := Step.jobBudget,
                                    description := some text },
   [⟨uid, "Budget:"⟩])

/-- The per-freelancer notification loop of `handle_job_budget`
(src/bot.py lines 429-445): for each freelancer, try to send; on send
failure skip silently; on success also log a `job_notification` event
for the recipient. -/
def notify_freelancers (logOk : Bool) (deliverOk : Nat → Bool)
    (now jobId : Nat) : List Nat → DB → DB × List Msg
  | [], db => (db, [])
  | f :: fs, db =>
    if deliverOk f then
      let db1 := log_activity logOk now f "job_notification"
          ("Notified about job #" ++ toString jobId) db
      let r := notify_freelancers logOk deliverOk now jobId fs db1
      (r.1, ⟨f, "NEW JOB AVAILABLE!"⟩ :: r.2)
    else
      notify_freelancers logOk deliverOk now jobId fs db

/-- Embeds `handle_job_budget` (src/bot.py lines 400-445).  The handler first
builds the log detail from `job_data['title']` — a missing title raises
`KeyError` before anything is written, aborting the handler with the
store unchanged; a missing description raises at the `create_job` call,
after the `post_job` event but before any job row is written.  On the
complete path it logs `post_job`, inserts the job, clears the state,
confirms to the client and notifies every reachable freelancer. -/
def handle_job_budget (logOk : Bool) (deliverOk : Nat → Bool)
    (now uid : Nat) (text : String) (cs : ConvState)
    (db : DB) (st : StateMap) : DB × StateMap × List Msg :=
  match cs.title with
  | none => (db, st, [])
  | some title =>
    let db1 := log_activity logOk now uid "post_job"
        ("Job: " ++ pyTake 30 title ++ "...") db
    match cs.description with
    | none => (db1, st, [])
    | some descr =>
      let (db2, jid) := create_job now uid title descr text db1
      let st2 := eraseState st uid
      let (db3, notices) :=
        notify_freelancers logOk deliverOk now jid (get_freelancers db2) db2
      (db3, st2, ⟨uid, "Job Posted Successfully! #" ++ toString jid⟩ :: notices)

/-- Embeds `handle_unknown` (src/bot.py lines 1071-1090): logs an
`unknown_command` event with detail `message.text[:50]`, then answers
with the command list only when the text starts with `/`; plain free
text gets no response at all. -/
def handle_unknown (logOk : Bool) (now uid : Nat) (text : String)
    (db : DB) (st : StateMap) : DB × StateMap × List Msg :=
  let db1 := log_activity logOk now uid "unknown_command" (pyTake 50 text) db
  if text.toList.take 1 = ['/'] then
    (db1, st, [⟨uid, "Unknown Command - available commands: ..."⟩])
  else
    (db1, st, [])

/-- Routing of one free-text message (not a slash command, not one of
the two role-button labels, both of which are matched by handlers
registered earlier): the state-filtered handlers fire only when the
sender's ephemeral state carries the matching step, otherwise the
message falls through to the catch-all `handle_unknown`. -/
def route_free_text (logOk : Bool) (deliverOk : Nat → Bool)
    (now uid : Nat) (text : String) (db : DB) (st : StateMap) :
    DB × StateMap × List Msg :=
  match lookupState st uid with
  | some cs =>
    match cs.step with
    | Step.askSkills => handle_skills logOk now uid text db st
    | Step.askLocation => handle_location logOk now uid text db st
    | Step.jobTitle => handle_job_title uid text db st
    | Step.jobDescription => handle_job_description uid text cs db st
    | Step.jobBudget => handle_job_budget logOk deliverOk now uid text cs db st
  | none => handle_unknown logOk now uid text db st

/-! ### Metrics aggregator -/

/-- The query `SELECT COUNT(*) FROM users WHERE DATE(created) = ?`. -/
def countNewUsers (d : Nat) (db : DB) : Nat :=
  (db.users.filter (fun u => u.created = d)).length

/-- The query `SELECT COUNT(*) FROM jobs WHERE DATE(created) = ?`. -/
def countNewJobs (d : Nat) (db : DB) : Nat :=
  (db.jobs.filter (fun j => j.created = d)).length

/-- The query `SELECT COUNT(DISTINCT user_id) FROM user_activity WHERE DATE(timestamp) = ?`. -/
def countActiveUsers (d : Nat) (db : DB) : Nat :=
  (((db.activity.filter (fun e => e.timestamp = d)).map
      (fun e => e.user_id)).dedup).length

/-- The statement `INSERT OR REPLACE INTO daily_metrics ... VALUES (?, ?, ?, ?)`:
`date` is the primary key, so the row for that date is replaced. -/
def upsertMetric (m : DailyMetric) (ms : List DailyMetric) : List DailyMetric :=
  m :: ms.filter (fun x => x.date ≠ m.date)

/-- Embeds `update_daily_metrics` (src/bot.py lines 138-178): recompute the
three counts for `today` and upsert the row keyed by `today`.  The body
is wrapped in `try/except`; `ok = false` models a raised exception,
swallowed with the store unchanged. -/
def update_daily_metrics (ok : Bool) (today : Nat) (db : DB) : DB :=
  if ok then
    { db with metrics :=
        upsertMetric ⟨today, countNewUsers today db, countNewJobs today db,
                      countActiveUsers today db⟩ db.metrics }
  else
    db

/-- The query `SELECT * FROM daily_metrics WHERE date = ?`. -/
def lookupMetric (d : Nat) (ms : List DailyMetric) : Option DailyMetric :=
  ms.find? (fun m => m.date = d)

/-! ### Admin surface -/

/-- Embeds `handle_ban_unban` (src/bot.py lines 846-884): guarded by
`is_admin` (silent return otherwise).  It runs
`UPDATE users SET is_banned=? WHERE user_id=?` — an UPDATE whose WHERE
clause matches no row changes nothing and raises nothing — then logs a
`user_banned`/`user_unbanned` event for the target id, looks the
username up (falling back to `"Unknown"`), and always reports success
to the admin. -/
def handle_ban_unban (adminId : Option Nat) (logOk : Bool)
    (now caller : Nat) (isBan : Bool) (target : Nat) (db : DB) :
    DB × List Msg :=
  if is_admin adminId caller then
    let db1 := { db with users := db.users.map (fun u =>
        if u.user_id = target then { u with is_banned := isBan } else u) }
    let action := if isBan then "user_banned" else "user_unbanned"
    let verb := if isBan then "banned" else "unbanned"
    let db2 := log_activity logOk now target action
        ((if isBan then "Banned by admin " else "Unbanned by admin ")
          ++ toString caller) db1
    let uname := match db2.users.find? (fun u => u.user_id = target) with
      | some u => u.username
      | none => "Unknown"
    (db2, [⟨caller, "User @" ++ uname ++ " (ID: " ++ toString target
            ++ ") has been " ++ verb ++ "."⟩])
  else
    (db, [])

/-- The callback-data tag built by `broadcast_message`
(src/bot.py line 1006): `f"confirm_broadcast:{broadcast_text}"`. -/
def confirmTag : List Char := "confirm_broadcast:".toList

/-- Build the confirmation callback token carrying the draft text. -/
def encodeToken (t : String) : List Char := confirmTag ++ t.toList

/-- Models `call.data.split(':', 1)[1]` (src/bot.py line 1027): everything
after the first colon. -/
def afterFirstColon : List Char → List Char
  | [] => []
  | c :: cs => if c = ':' then cs else afterFirstColon cs

/-- Decode the broadcast text back out of a confirmation token. -/
def decodeToken (data : List Char) : String :=
  String.mk (afterFirstColon data)

/-- Models `data.startswith(pat)` on the char-list model of callback data. -/
def startsWithChars : List Char → List Char → Bool
  | [], _ => true
  | _ :: _, [] => false
  | p :: ps, c :: cs => p = c && startsWithChars ps cs

/-- Embeds `broadcast_message` (src/bot.py lines 988-1015): guarded by
`is_admin` (silent return otherwise); without an argument it replies
with a usage hint and builds no token; with an argument it shows a
confirmation prompt carrying a 100-character preview and attaches the
token `encodeToken t` to the confirm button.  Returns the token it
attached, if any. -/
def broadcast_message (adminId : Option Nat) (caller : Nat)
    (args : Option String) (db : DB) : DB × List Msg × Option (List Char) :=
  if is_admin adminId caller then
    match args with
    | none => (db, [⟨caller, "Usage: /broadcast your message here"⟩], none)
    | some t =>
      (db, [⟨caller, "BROADCAST CONFIRMATION: " ++ pyTake 100 t ++ "..."⟩],
       some (encodeToken t))
  else
    (db, [], none)

/-- The per-recipient delivery loop of the broadcast dispatch
(src/bot.py lines 1046-1055): for each target try to send; a send
failure is caught, counted, and the loop continues.  Returns
(succeeded, failed, ids actually delivered to, in order). -/
def broadcast_loop (deliverOk : Nat → Bool) :
    List Nat → Nat × Nat × List Nat
  | [] => (0, 0, [])
  | t :: ts =>
    let r := broadcast_loop deliverOk ts
    if deliverOk t then (r.1 + 1, r.2.1, t :: r.2.2)
    else (r.1, r.2.1 + 1, r.2.2)

/-- The non-banned target list of the broadcast
(`SELECT user_id FROM users WHERE is_banned=0`, src/bot.py line 1037). -/
def activeUserIds (db : DB) : List Nat :=
  (db.users.filter (fun u => u.is_banned = false)).map (fun u => u.user_id)

/-- The confirm branch of `handle_callback` (src/bot.py lines
1026-1068): decode the text out of the token, fan the announcement out
to every non-banned user, report `{total, sent, failed}` to the admin
chat, and log one aggregate `broadcast_sent` event for the caller. -/
def confirm_broadcast_dispatch (logOk : Bool) (deliverOk : Nat → Bool)
    (now caller : Nat) (data : List Char) (db : DB) : DB × List Msg :=
  let btext := decodeToken data
  let targets := activeUserIds db
  let r := broadcast_loop deliverOk targets
  let db1 := log_activity logOk now caller "broadcast_sent"
      ("Sent to " ++ toString r.1 ++ " users. Message: " ++ pyTake 50 btext) db
  (db1,
   ⟨caller, "Sending broadcast to all users..."⟩
     :: r.2.2.map (fun t => ⟨t, "ANNOUNCEMENT: " ++ btext⟩)
     ++ [⟨caller, "BROADCAST COMPLETE - Total Users: " ++ toString targets.length
           ++ " Successfully Sent: " ++ toString r.1
           ++ " Failed: " ++ toString r.2.1⟩])

/-- Embeds `handle_callback` (src/bot.py lines 1018-1068): registered for ALL
callback queries.  The source performs no `is_admin` check here: a
`cancel_broadcast` payload is acknowledged and a
`confirm_broadcast:...` payload triggers the full dispatch, whoever
the caller is and whether or not an admin id is configured. -/
def handle_callback (logOk : Bool) (deliverOk : Nat → Bool)
    (now caller : Nat) (data : List Char) (db : DB) : DB × List Msg :=
  if data = "cancel_broadcast".toList then
    (db, [⟨caller, "Broadcast cancelled."⟩])
  else if startsWithChars confirmTag data then
    confirm_broadcast_dispatch logOk deliverOk now caller data db
  else
    (db, [])

/-! ### Helper lemmas -/

theorem startsWithChars_append (p l : List Char) :
    startsWithChars p (p ++ l) = true := by
  induction p with
  | nil => rfl
  | cons c cs ih => simp [startsWithChars, ih]

theorem afterFirstColon_confirmTag (l : List Char) :
    afterFirstColon (confirmTag ++ l) = l := rfl

theorem encodeToken_ne_cancel (t : String) :
    encodeToken t ≠ "cancel_broadcast".toList := by
  intro h
  have hlen := congrArg List.length h
  simp [encodeToken, confirmTag, List.length_append] at hlen

theorem broadcast_loop_spec (deliverOk : Nat → Bool) (targets : List Nat) :
    (broadcast_loop deliverOk targets).1 = (targets.filter deliverOk).length ∧
    (broadcast_loop deliverOk targets).2.1
      = (targets.filter (fun t => !(deliverOk t))).length ∧
    (broadcast_loop deliverOk targets).2.2 = targets.filter deliverOk := by
  induction targets with
  | nil => simp [broadcast_loop]
  | cons t ts ih =>
    rcases ih with ⟨h1, h2, h3⟩
    by_cases h : deliverOk t = true
    · simp [broadcast_loop, List.filter_cons, h, h1, h2, h3]
    · simp only [Bool.not_eq_true] at h
      simp [broadcast_loop, List.filter_cons, h, h1, h2, h3]

theorem filter_length_add (p : Nat → Bool) (l : List Nat) :
    (l.filter p).length + (l.filter (fun t => !(p t))).length = l.length := by
  induction l with
  | nil => simp
  | cons t ts ih =>
    by_cases h : p t = true
    · simp [List.filter_cons, h]; omega
    · simp only [Bool.not_eq_true] at h
      simp [List.filter_cons, h]; omega

theorem notify_msgs_chats (lg : Bool) (deliverOk : Nat → Bool)
    (now jid : Nat) (fs : List Nat) (db : DB) :
    ((notify_freelancers lg deliverOk now jid fs db).2.map (fun m => m.chat))
      = fs.filter deliverOk := by
  induction fs generalizing db with
  | nil => rfl
  | cons f fs ih =>
    by_cases h : deliverOk f = true
    · simp [notify_freelancers, h, List.filter_cons, ih]
    · simp only [Bool.not_eq_true] at h
      simp [notify_freelancers, h, List.filter_cons, ih]

theorem filter_ne_date_idem (d : Nat) (l : List DailyMetric) :
    (l.filter (fun x => x.date ≠ d)).filter (fun x => x.date ≠ d)
      = l.filter (fun x => x.date ≠ d) := by
  induction l with
  | nil => rfl
  | cons x xs ih =>
    by_cases h : x.date = d
    · simp [List.filter_cons, h, ih]
    · simp [List.filter_cons, h, ih]

theorem filter_eq_of_filter_ne (d : Nat) (l : List DailyMetric) :
    (l.filter (fun x => x.date ≠ d)).filter (fun x => x.date = d) = [] := by
  induction l with
  | nil => rfl
  | cons x xs ih =>
    by_cases h : x.date = d
    · simp [List.filter_cons, h, ih]
    · simp [List.filter_cons, h, ih]

theorem find_filter_of_imp {α : Type} (p q : α → Bool)
    (h : ∀ x, p x = true → q x = true) (l : List α) :
    (l.filter q).find? p = l.find? p := by
  induction l with
  | nil => rfl
  | cons x xs ih =>
    rw [List.filter_cons]
    by_cases hq : q x = true
    · rw [if_pos hq, List.find?_cons, List.find?_cons]
      cases hp : p x
      · exact ih
      · rfl
    · rw [if_neg hq, List.find?_cons]
      cases hp : p x
      · exact ih
      · exact absurd (h x hp) hq

theorem find_filter_ne_date (d today : Nat) (hd : d ≠ today)
    (l : List DailyMetric) :
    (l.filter (fun x => x.date ≠ today)).find? (fun x => x.date = d)
      = l.find? (fun x => x.date = d) := by
  apply find_filter_of_imp
  intro x hx
  simp only [decide_eq_true_eq] at hx ⊢
  omega

theorem map_ban_eq_self (target : Nat) (isBan : Bool) (l : List User)
    (h : ∀ u ∈ l, u.user_id ≠ target) :
    (l.map (fun u =>
      if u.user_id = target then { u with is_banned := isBan } else u)) = l := by
  induction l with
  | nil => rfl
  | cons u us ih =>
    have hu : u.user_id ≠ target := h u (List.mem_cons_self u us)
    simp only [List.map_cons, if_neg hu]
    rw [ih (fun v hv => h v (List.mem_cons_of_mem u hv))]

theorem find_none_of_no_match (target : Nat) (l : List User)
    (h : ∀ u ∈ l, u.user_id ≠ target) :
    l.find? (fun u => u.user_id = target) = none := by
  rw [List.find?_eq_none]
  intro u hu
  simp [h u hu]

/-! ### Concrete fixtures used by witnesses and counterexamples -/

/-- A store holding one fully registered freelancer (id 1, with skills
and location filled in). -/
def dbFreelancer : DB :=
  { users := [⟨1, "alice", "freelancer", "Web Design", "Manila", false, 0⟩],
    jobs := [], activity := [], metrics := [] }

/-- A store holding one non-banned user (id 7) and nothing else. -/
def dbOneUser : DB :=
  { users := [⟨7, "bob", "client", "", "", false, 0⟩],
    jobs := [], activity := [], metrics := [] }

/-- A store holding two non-banned freelancers (ids 2 and 3). -/
def dbTwoFreelancers : DB :=
  { users := [⟨2, "fl1", "freelancer", "", "", false, 0⟩,
              ⟨3, "fl2", "freelancer", "", "", false, 0⟩],
    jobs := [], activity := [], metrics := [] }

/-- A store with two metric rows, for dates 3 and 5. -/
def dbMetrics : DB :=
  { users := [⟨1, "alice", "freelancer", "", "", false, 5⟩],
    jobs := [], activity := [⟨1, "start_command", "User started bot", 5⟩],
    metrics := [⟨3, 2, 1, 4⟩, ⟨5, 0, 0, 0⟩] }

/-- A 60-character location text. -/
def longLocation : String := String.mk (List.replicate 60 'x')

/-! ### Claim theorems -/

/-- Claim C1 (code_bug).  The claim says re-sending a role choice sets the
role but leaves stored skills and location unchanged, and the spec
states `upsertUser` never clears fields it is not given.  The source's
`save_user` uses `INSERT OR REPLACE`, which deletes the existing row
and re-inserts it with the column defaults for every column the
statement does not name: at the concrete failing input — user 1 stored
with skills "Web Design" and location "Manila", re-sending the client
role button — the stored skills and location both come back empty (the
created timestamp and ban flag are reset too). -/
theorem C1_reregistration_wipes_profile :
    (choose_role true 5 1 "alice" false dbFreelancer []).1.users
      = [⟨1, "alice", "client", "", "", false, 5⟩] ∧
    dbFreelancer.users.map (fun u => (u.skills, u.location))
      = [("Web Design", "Manila")] ∧
    (choose_role true 5 1 "alice" false dbFreelancer []).1.users.map
        (fun u => (u.skills, u.location)) = [("", "")] := by
  refine ⟨rfl, rfl, rfl⟩

/-- Counterexample for C5.  The job-notification fan-out is a fan-out
batch too (src/bot.py lines 428-445), but it counts nothing and
reports no outcome: posting a job on a store with two freelancers
(ids 2 and 3) while delivery to id 2 fails — a batch with `N = 2`,
`K = 1` — produces exactly two outgoing messages, the job confirmation
to the poster (chat 1) and the notice to the one reachable freelancer
(chat 3); no message carrying `{total: 2, succeeded: 1, failed: 1}` is
sent to anyone, refuting "the batch reports total N, succeeded N-K,
and failed K" for this batch. -/
theorem C5_counterexample_notification_batch_unreported :
    (handle_job_budget true (fun t => t ≠ 2) 4 1 "$50"
        ⟨Step.jobBudget, some "Logo", some "Need a logo"⟩ dbTwoFreelancers
        [(1, ⟨Step.jobBudget, some "Logo", some "Need a logo"⟩)]).2.2
      = [⟨1, "Job Posted Successfully! #" ++ toString 1⟩,
         ⟨3, "NEW JOB AVAILABLE!"⟩] := by
  decide

/-- Claim C5 (corrected).  Amended claim: in every fan-out batch a
per-recipient failure is caught, does not abort delivery to the
remaining recipients, and no exception escapes the batch.  The
broadcast batch additionally counts outcomes and reports `total = N`,
`succeeded = N - K`, `failed = K` (so `succeeded + failed = total`),
delivering to exactly the non-failing targets; the job-notification
batch, however, reports nothing: its outgoing messages go only to the
recipients it reaches (exactly the non-failing freelancers, wherever
the failures sit in the list), and no accounting message exists. -/
theorem C5_fanout_accounting_amended :
    (∀ (deliverOk : Nat → Bool) (targets : List Nat),
        (broadcast_loop deliverOk targets).1
            + (broadcast_loop deliverOk targets).2.1 = targets.length ∧
        (broadcast_loop deliverOk targets).2.1
            = (targets.filter (fun t => !(deliverOk t))).length ∧
        (broadcast_loop deliverOk targets).1
            = targets.length
                - (targets.filter (fun t => !(deliverOk t))).length ∧
        (broadcast_loop deliverOk targets).2.2
            = targets.filter deliverOk) ∧
    (∀ lg (deliverOk : Nat → Bool) now jid fs (db : DB),
        ((notify_freelancers lg deliverOk now jid fs db).2.map
            (fun m => m.chat)) = fs.filter deliverOk) := by
  constructor
  · intro deliverOk targets
    obtain ⟨h1, h2, h3⟩ := broadcast_loop_spec deliverOk targets
    have hadd := filter_length_add deliverOk targets
    refine ⟨?_, h2, ?_, h3⟩
    · rw [h1, h2]; exact hadd
    · rw [h1]; omega
  · intro lg deliverOk now jid fs db
    exact notify_msgs_chats lg deliverOk now jid fs db

/-- Claim C7 (confirmed).  The confirmation token built by the broadcast
draft step (`confirm_broadcast:` followed by the draft) decodes back to
exactly the original full message text for every draft, including
drafts containing the separator `:` — decoding splits on the first
colon only, and the fixed tag contains none. -/
theorem C7_token_roundtrip (t : String) :
    decodeToken (encodeToken t) = t := rfl

theorem upsert_idem (M : DailyMetric) (l : List DailyMetric) :
    upsertMetric M (upsertMetric M l) = upsertMetric M l := by
  simp only [upsertMetric, List.filter_cons]
  simp [filter_ne_date_idem M.date l]

theorem upsert_one_row (M : DailyMetric) (l : List DailyMetric) :
    ((upsertMetric M l).filter (fun x => x.date = M.date)).length = 1 := by
  simp only [upsertMetric, List.filter_cons]
  simp [filter_eq_of_filter_ne M.date l]

/-- Claim C6 (confirmed).  Running the Metrics Aggregator twice in a row
for the same date with no intervening writes is idempotent: the second
run recomputes the same three counts (the run itself touches only
`daily_metrics`, which none of the counts read) and replace-on-conflict
leaves the store exactly as after the first run; after the run(s) the
table holds exactly one row for that date. -/
theorem C6_metrics_idempotent (today : Nat) (db : DB) :
    update_daily_metrics true today (update_daily_metrics true today db)
      = update_daily_metrics true today db ∧
    ((update_daily_metrics true today db).metrics.filter
        (fun m => m.date = today)).length = 1 := by
  obtain ⟨us, js, ac, ms⟩ := db
  exact ⟨congrArg (DB.mk us js ac) (upsert_idem _ ms), upsert_one_row _ ms⟩

/-- Claim C9 (confirmed).  A run of the Metrics Aggregator writes only
the `daily_metrics` row keyed by the current date at the time of the
run: the row for every other date is unchanged, and the run writes
nothing to the users, jobs or activity tables, so a date whose run was
missed is never backfilled — a run that raises changes nothing at
all. -/
theorem C9_metrics_frame (today d : Nat) (db : DB) (hd : d ≠ today) :
    lookupMetric d (update_daily_metrics true today db).metrics
      = lookupMetric d db.metrics ∧
    (update_daily_metrics true today db).users = db.users ∧
    (update_daily_metrics true today db).jobs = db.jobs ∧
    (update_daily_metrics true today db).activity = db.activity ∧
    update_daily_metrics false today db = db := by
  refine ⟨?_, rfl, rfl, rfl, rfl⟩
  obtain ⟨us, js, ac, ms⟩ := db
  show (upsertMetric _ ms).find? _ = ms.find? _
  rw [upsertMetric, List.find?_cons]
  have hMd : (decide (today = d)) = false := by
    simp only [decide_eq_false_iff_not]
    omega
  simp only [hMd]
  exact find_filter_ne_date d today hd ms

/-- Witness for C9 at a concrete input: running the aggregator for
date 5 on `dbMetrics` leaves the stored row for date 3 unchanged. -/
theorem C9_metrics_frame_witness :
    lookupMetric 3 (update_daily_metrics true 5 dbMetrics).metrics
      = lookupMetric 3 dbMetrics.metrics ∧
    (update_daily_metrics true 5 dbMetrics).users = dbMetrics.users := by
  have h := C9_metrics_frame 5 3 dbMetrics (by decide)
  exact ⟨h.1, h.2.1⟩

/-- Claim C10 (confirmed).  For a target id with no `users` row, the
admin ban/unban handler leaves the users table unchanged (the UPDATE
matches no row), writes nothing to jobs or metrics, still appends one
ActivityEvent for the target id, and reports success to the admin
(with the username shown as "Unknown") rather than "not found". -/
theorem C10_ban_unban_missing_user (adminId : Option Nat)
    (now caller target : Nat) (isBan : Bool) (db : DB)
    (hadm : is_admin adminId caller = true)
    (hmiss : ∀ u ∈ db.users, u.user_id ≠ target) :
    (handle_ban_unban adminId true now caller isBan target db).1.users
      = db.users ∧
    (handle_ban_unban adminId true now caller isBan target db).1.jobs
      = db.jobs ∧
    (handle_ban_unban adminId true now caller isBan target db).1.metrics
      = db.metrics ∧
    (handle_ban_unban adminId true now caller isBan target db).1.activity
      = ⟨target, if isBan then "user_banned" else "user_unbanned",
          (if isBan then "Banned by admin " else "Unbanned by admin ")
            ++ toString caller, now⟩ :: db.activity ∧
    (handle_ban_unban adminId true now caller isBan target db).2
      = [⟨caller, "User @" ++ "Unknown" ++ " (ID: " ++ toString target
            ++ ") has been " ++ (if isBan then "banned" else "unbanned")
            ++ "."⟩] := by
  have husers := map_ban_eq_self target isBan db.users hmiss
  have hfind := find_none_of_no_match target db.users hmiss
  simp only [handle_ban_unban, hadm, if_true, log_activity, husers, hfind]
  simp

/-- Witness for C10: with admin 99 configured and calling, banning the
absent id 5 on a store holding only user 7 leaves the users table
unchanged, logs one `user_banned` event for id 5, and reports
success. -/
theorem C10_ban_unban_missing_user_witness :
    (handle_ban_unban (some 99) true 2 99 true 5 dbOneUser).1.users
      = dbOneUser.users ∧
    (handle_ban_unban (some 99) true 2 99 true 5 dbOneUser).1.activity
      = ⟨5, "user_banned", "Banned by admin " ++ toString 99, 2⟩
          :: dbOneUser.activity ∧
    (handle_ban_unban (some 99) true 2 99 true 5 dbOneUser).2
      = [⟨99, "User @" ++ "Unknown" ++ " (ID: " ++ toString 5
            ++ ") has been " ++ (if true then "banned" else "unbanned")
            ++ "."⟩] := by
  have h := C10_ban_unban_missing_user (some 99) 2 99 5 true dbOneUser
    (by decide) (by decide)
  exact ⟨h.1, h.2.2.2.1, h.2.2.2.2⟩

/-- Counterexample for C2.  The callback handler (src/bot.py lines
1018-1068) performs no admin check at all — the model has no admin-id
parameter because the source never consults `ADMIN_ID` there.  Caller
42 is not the admin under an unset configuration (`is_admin none 42 =
false`), yet sending the `confirm_broadcast:hi` callback executes the
whole broadcast: the aggregate `broadcast_sent` event is logged for
caller 42 and the announcement is delivered to user 7.  This refutes
"when no admin id is configured, no admin operation (including
confirming a broadcast) can execute for any caller". -/
theorem C2_counterexample_callback_unguarded :
    is_admin none 42 = false ∧
    ((handle_callback true (fun _ => true) 9 42 (encodeToken "hi")
        dbOneUser).1.activity.map (fun e => (e.user_id, e.action)))
      = [(42, "broadcast_sent")] ∧
    ((handle_callback true (fun _ => true) 9 42 (encodeToken "hi")
        dbOneUser).2.map (fun m => m.chat)) = [42, 7, 42] := by
  decide

/-- Claim C2 (corrected).  Amended claim: every command-entry admin
operation (here: ban/unban and the broadcast draft step, which the
source guards with `is_admin`) takes effect only when the caller's id
equals the single configured admin id, and `is_admin` rejects every
caller when no admin id is configured; the broadcast confirm/cancel
callback step, however, is NOT guarded: it runs the dispatch (or the
cancellation) for any caller whatsoever, configured admin or not. -/
theorem C2_admin_guard_amended (adminId : Option Nat) (caller : Nat)
    (h : is_admin adminId caller = false) :
    (∀ logOk now isBan target db,
        handle_ban_unban adminId logOk now caller isBan target db
          = (db, [])) ∧
    (∀ args db, broadcast_message adminId caller args db = (db, [], none)) ∧
    (∀ c, is_admin none c = false) ∧
    (∀ logOk deliverOk now t db,
        handle_callback logOk deliverOk now caller (encodeToken t) db
          = confirm_broadcast_dispatch logOk deliverOk now caller
              (encodeToken t) db) ∧
    (∀ logOk deliverOk now db,
        handle_callback logOk deliverOk now caller
            "cancel_broadcast".toList db
          = (db, [⟨caller, "Broadcast cancelled."⟩])) := by
  refine ⟨?_, ?_, ?_, ?_, ?_⟩
  · intro logOk now isBan target db
    simp [handle_ban_unban, h]
  · intro args db
    simp [broadcast_message, h]
  · intro c
    rfl
  · intro logOk deliverOk now t db
    have h1 := encodeToken_ne_cancel t
    have h2 : startsWithChars confirmTag (encodeToken t) = true :=
      startsWithChars_append confirmTag t.toList
    unfold handle_callback
    rw [if_neg h1, if_pos h2]
  · intro logOk deliverOk now db
    rfl

/-- Witness for C2's amended claim at concrete inputs: with admin 99
configured, caller 42 gets nothing from ban/unban or the broadcast
draft step, yet 42's confirm callback still runs the dispatch. -/
theorem C2_admin_guard_amended_witness :
    handle_ban_unban (some 99) true 0 42 true 7 dbOneUser
      = (dbOneUser, []) ∧
    broadcast_message (some 99) 42 (some "hello") dbOneUser
      = (dbOneUser, [], none) ∧
    handle_callback true (fun _ => true) 9 42 (encodeToken "hi") dbOneUser
      = confirm_broadcast_dispatch true (fun _ => true) 9 42
          (encodeToken "hi") dbOneUser := by
  have h := C2_admin_guard_amended (some 99) 42 (by decide)
  exact ⟨h.1 true 0 true 7 dbOneUser, h.2.1 (some "hello") dbOneUser,
         h.2.2.2.1 true (fun _ => true) 9 "hi" dbOneUser⟩

theorem notify_activity_len (deliverOk : Nat → Bool) (now jid : Nat)
    (fs : List Nat) (db : DB) :
    (notify_freelancers true deliverOk now jid fs db).1.activity.length
      = db.activity.length + (fs.filter deliverOk).length := by
  induction fs generalizing db with
  | nil => simp [notify_freelancers]
  | cons f fs ih =>
    by_cases h : deliverOk f = true
    · simp [notify_freelancers, h, List.filter_cons, ih, log_activity]
      omega
    · simp only [Bool.not_eq_true] at h
      simp [notify_freelancers, h, List.filter_cons, ih]

theorem notify_false_id (deliverOk : Nat → Bool) (now jid : Nat)
    (fs : List Nat) (db : DB) :
    (notify_freelancers false deliverOk now jid fs db).1 = db := by
  induction fs generalizing db with
  | nil => rfl
  | cons f fs ih =>
    by_cases h : deliverOk f = true
    · simp [notify_freelancers, h, log_activity, ih]
    · simp only [Bool.not_eq_true] at h
      simp [notify_freelancers, h, ih]

theorem notify_msgs_indep (deliverOk : Nat → Bool) (now jid : Nat)
    (fs : List Nat) (db db2 : DB) (lg lg2 : Bool) :
    (notify_freelancers lg deliverOk now jid fs db).2
      = (notify_freelancers lg2 deliverOk now jid fs db2).2 := by
  induction fs generalizing db db2 with
  | nil => rfl
  | cons f fs ih =>
    by_cases h : deliverOk f = true
    · simp only [notify_freelancers, h, if_true]
      exact congrArg _ (ih _ _)
    · simp only [Bool.not_eq_true] at h
      simp only [notify_freelancers, h, Bool.false_eq_true, if_false]
      exact ih _ _

theorem budget_msgs_indep (dOk : Nat → Bool) (now uid : Nat)
    (t ti de : String) (db : DB) (st : StateMap) :
    (handle_job_budget false dOk now uid t
        ⟨Step.jobBudget, some ti, some de⟩ db st).2.2
      = (handle_job_budget true dOk now uid t
          ⟨Step.jobBudget, some ti, some de⟩ db st).2.2 := by
  show (⟨uid, "Job Posted Successfully! #" ++ toString (db.jobs.length + 1)⟩
          : Msg)
        :: (notify_freelancers false dOk now (db.jobs.length + 1)
              (get_freelancers db) _).2
      = ⟨uid, "Job Posted Successfully! #" ++ toString (db.jobs.length + 1)⟩
        :: (notify_freelancers true dOk now (db.jobs.length + 1)
              (get_freelancers db) _).2
  exact congrArg
    (fun l => (⟨uid, "Job Posted Successfully! #"
        ++ toString (db.jobs.length + 1)⟩ : Msg) :: l)
    (notify_msgs_indep dOk now _ _ _ _ false true)

/-- Counterexample for C3.  The job-title transition is one of the six
conversation-engine transitions, yet processing a title message appends
no ActivityEvent at all: on a store with an empty activity table the
handler leaves the table empty, refuting "processing the message
appends exactly one ActivityEvent". -/
theorem C3_counterexample_title_logs_nothing :
    (handle_job_title 1 "Logo design" dbOneUser
        [(1, ⟨Step.jobTitle, none, none⟩)]).1.activity = [] ∧
    (handle_job_title 1 "Logo design" dbOneUser
        [(1, ⟨Step.jobTitle, none, none⟩)]).1.activity.length
      ≠ dbOneUser.activity.length + 1 := by
  decide

/-- Claim C3 (corrected).  Amended claim: the role-selection, skills and
location transitions each append exactly one ActivityEvent describing
the action; the job-title and job-description transitions append none;
the budget transition appends one `post_job` event plus one
`job_notification` event per freelancer the job notice is actually
delivered to.  A failure of the append is swallowed: with the log
insert failing, every transition leaves the activity table unchanged
while producing exactly the same outgoing messages (and the same
ephemeral-state update) as on the success path — the failure is never
surfaced to the user. -/
theorem C3_activity_logging_amended :
    (∀ now uid un hf (db : DB) st,
        (choose_role true now uid un hf db st).1.activity
          = ⟨uid, "role_selected",
              "Selected role: " ++ (if hf then "freelancer" else "client"),
              now⟩ :: db.activity) ∧
    (∀ now uid t (db : DB) st,
        (handle_skills true now uid t db st).1.activity
          = ⟨uid, "set_skills", "Skills: " ++ pyTake 50 t, now⟩
              :: db.activity) ∧
    (∀ now uid t (db : DB) st,
        (handle_location true now uid t db st).1.activity
          = ⟨uid, "set_location", "Location: " ++ t, now⟩ :: db.activity) ∧
    (∀ uid t (db : DB) st, (handle_job_title uid t db st).1 = db) ∧
    (∀ uid t cs (db : DB) st,
        (handle_job_description uid t cs db st).1 = db) ∧
    (∀ dOk now uid t ti de (db : DB) st,
        (handle_job_budget true dOk now uid t
            ⟨Step.jobBudget, some ti, some de⟩ db st).1.activity.length
          = db.activity.length + 1 + ((get_freelancers db).filter dOk).length) ∧
    (∀ now uid un hf (db : DB) st,
        (choose_role false now uid un hf db st).1.activity = db.activity ∧
        (choose_role false now uid un hf db st).2
          = (choose_role true now uid un hf db st).2) ∧
    (∀ now uid t (db : DB) st,
        (handle_skills false now uid t db st).1.activity = db.activity ∧
        (handle_skills false now uid t db st).2
          = (handle_skills true now uid t db st).2) ∧
    (∀ now uid t (db : DB) st,
        (handle_location false now uid t db st).1.activity = db.activity ∧
        (handle_location false now uid t db st).2
          = (handle_location true now uid t db st).2) ∧
    (∀ dOk now uid t ti de (db : DB) st,
        (handle_job_budget false dOk now uid t
            ⟨Step.jobBudget, some ti, some de⟩ db st).1.activity
          = db.activity ∧
        (handle_job_budget false dOk now uid t
            ⟨Step.jobBudget, some ti, some de⟩ db st).2.2
          = (handle_job_budget true dOk now uid t
              ⟨Step.jobBudget, some ti, some de⟩ db st).2.2) := by
  refine ⟨?_, ?_, ?_, ?_, ?_, ?_, ?_, ?_, ?_, ?_⟩
  · intro now uid un hf db st
    cases hf <;> rfl
  · intro now uid t db st
    rfl
  · intro now uid t db st
    rfl
  · intro uid t db st
    rfl
  · intro uid t cs db st
    rfl
  · intro dOk now uid t ti de db st
    show (notify_freelancers true dOk now _ (get_freelancers _) _).1.activity.length = _
    rw [notify_activity_len]
    simp [log_activity, create_job, get_freelancers]
  · intro now uid un hf db st
    cases hf <;> exact ⟨rfl, rfl⟩
  · intro now uid t db st
    exact ⟨rfl, rfl⟩
  · intro now uid t db st
    exact ⟨rfl, rfl⟩
  · intro dOk now uid t ti de db st
    constructor
    · show (notify_freelancers false dOk now _ (get_freelancers _) _).1.activity = _
      rw [notify_false_id]
      rfl
    · exact budget_msgs_indep dOk now uid t ti de db st

/-- Counterexample for C4.  With the ephemeral accumulator lost (empty
state map, e.g. after a restart) a plain-text budget message "500"
falls through to the catch-all handler: no Job row is created — but the
outgoing message list is empty, so the user is NOT told to restart the
flow (the source answers only command-shaped text), refuting the second
half of the claim. -/
theorem C4_counterexample_silent_on_lost_state :
    (route_free_text true (fun _ => true) 3 1 "500" dbOneUser []).1.jobs
      = dbOneUser.jobs ∧
    (route_free_text true (fun _ => true) 3 1 "500" dbOneUser []).2.2
      = [] := by
  decide

/-- Claim C4 (corrected).  Amended claim: when the accumulator for the
sender is absent, a budget-step message routes to the fallback, which
creates no Job row, touches no user row, leaves the state map as it
was, logs an `unknown_command` event — and sends nothing back for
plain (non-slash) text, so the user is not told to restart; when the
accumulator exists but lacks the title, the budget handler aborts with
the store untouched and no reply; lacking only the description it
aborts after the `post_job` log entry, again creating no Job row and
sending no reply. -/
theorem C4_fail_closed_amended (logOk : Bool) (dOk : Nat → Bool)
    (now uid : Nat) (text : String) (db : DB) (st : StateMap)
    (hstate : lookupState st uid = none)
    (hplain : text.toList.take 1 ≠ ['/']) :
    (route_free_text logOk dOk now uid text db st).1.jobs = db.jobs ∧
    (route_free_text logOk dOk now uid text db st).1.users = db.users ∧
    (route_free_text logOk dOk now uid text db st).2.1 = st ∧
    (route_free_text logOk dOk now uid text db st).2.2 = [] ∧
    (route_free_text true dOk now uid text db st).1.activity
      = ⟨uid, "unknown_command", pyTake 50 text, now⟩ :: db.activity ∧
    (∀ cs st2, cs.title = none →
        handle_job_budget logOk dOk now uid text cs db st2 = (db, st2, [])) ∧
    (∀ ti st2,
        (handle_job_budget logOk dOk now uid text
            ⟨Step.jobBudget, some ti, none⟩ db st2).1.jobs = db.jobs ∧
        (handle_job_budget logOk dOk now uid text
            ⟨Step.jobBudget, some ti, none⟩ db st2).2.2 = []) := by
  have hr : ∀ lg, route_free_text lg dOk now uid text db st
      = handle_unknown lg now uid text db st := by
    intro lg
    unfold route_free_text
    rw [hstate]
  refine ⟨?_, ?_, ?_, ?_, ?_, ?_, ?_⟩
  · rw [hr]
    unfold handle_unknown
    rw [if_neg hplain]
    cases logOk <;> rfl
  · rw [hr]
    unfold handle_unknown
    rw [if_neg hplain]
    cases logOk <;> rfl
  · rw [hr]
    unfold handle_unknown
    rw [if_neg hplain]
  · rw [hr]
    unfold handle_unknown
    rw [if_neg hplain]
  · rw [hr]
    unfold handle_unknown
    rw [if_neg hplain]
    rfl
  · intro cs st2 hcs
    unfold handle_job_budget
    rw [hcs]
  · intro ti st2
    refine ⟨?_, rfl⟩
    show (log_activity logOk now uid "post_job" _ db).jobs = db.jobs
    cases logOk <;> rfl

/-- Witness for C4's amended claim at the concrete lost-state input:
empty state map, plain-text message "500" from user 1. -/
theorem C4_fail_closed_amended_witness :
    (route_free_text true (fun _ => true) 3 1 "500" dbOneUser []).1.users
      = dbOneUser.users ∧
    (route_free_text true (fun _ => true) 3 1 "500" dbOneUser []).1.activity
      = ⟨1, "unknown_command", pyTake 50 "500", 3⟩ :: dbOneUser.activity := by
  have h := C4_fail_closed_amended true (fun _ => true) 3 1 "500" dbOneUser []
    (by decide) (by decide)
  exact ⟨h.2.1, h.2.2.2.2.1⟩

/-- Counterexample for C8.  The location step logs the event detail
`"Location: " + location` with no truncation: a 60-character location
yields a 70-character detail, which is neither at most 50 characters
long nor a prefix of the underlying text. -/
theorem C8_counterexample_location_detail_unbounded :
    ((handle_location true 0 1 longLocation dbOneUser []).1.activity.map
        (fun e => e.details)) = ["Location: " ++ longLocation] ∧
    ("Location: " ++ longLocation).toList.length = 70 ∧
    ¬ ("Location: " ++ longLocation).toList.length ≤ 50 := by
  decide

/-- Claim C8 (corrected).  Amended claim: the `unknown_command` detail is
exactly the at-most-50-character leading segment of the message text;
the skills and job-post details are fixed templates embedding a
truncated prefix of the underlying text (50 and 30 characters
respectively), so they are bounded but can slightly exceed 50
characters and are not themselves prefixes; the `set_location` detail
embeds the complete location text untruncated, so it is unbounded. -/
theorem C8_detail_truncation_amended (now uid : Nat) (text : String)
    (db : DB) (st : StateMap) :
    ((handle_unknown true now uid text db st).1.activity.head?).map
        (fun e => e.details) = some (pyTake 50 text) ∧
    (pyTake 50 text).toList.length ≤ 50 ∧
    (pyTake 50 text).toList ++ text.toList.drop 50 = text.toList ∧
    ((handle_skills true now uid text db st).1.activity.head?).map
        (fun e => e.details) = some ("Skills: " ++ pyTake 50 text) ∧
    ((handle_location true now uid text db st).1.activity.head?).map
        (fun e => e.details) = some ("Location: " ++ text) ∧
    (∀ dOk ti,
        ((handle_job_budget true dOk now uid text
            ⟨Step.jobBudget, some ti, none⟩ db st).1.activity.head?).map
          (fun e => e.details) = some ("Job: " ++ pyTake 30 ti ++ "...")) := by
  refine ⟨?_, ?_, ?_, ?_, ?_, ?_⟩
  · unfold handle_unknown
    by_cases h : text.toList.take 1 = ['/']
    · rw [if_pos h]
      rfl
    · rw [if_neg h]
      rfl
  · show (text.toList.take 50).length ≤ 50
    rw [List.length_take]
    exact Nat.min_le_left _ _
  · exact List.take_append_drop 50 text.toList
  · rfl
  · rfl
  · intro dOk ti
    rfl

end Bot
